import Mathlib

/-
  Verification of the asynchronous job-processing and outbound-integration
  subsystem of the KRC-Portal repository (worker application: messaging,
  events, queue, scheduler, ggLeap reconciliation).

  The Python sources are shallowly embedded as pure Lean functions:
  - the relational store behind the Delivery Record table is a list of rows
    plus a fresh-id counter, threaded explicitly;
  - wall-clock timestamps (datetime.utcnow().isoformat()) are opaque strings
    supplied by the caller;
  - HTTP I/O is modelled by an outcome parameter (status code and body, or a
    raised exception) standing for the response the network produced, and by
    a trace of the requests the code issued;
  - hashlib / hmac are implemented concretely (full SHA-256 and HMAC-SHA256
    over byte lists, bytes being naturals below 256).
-/

set_option maxRecDepth 1000000

namespace KRC

/-! ## Bytes, UTF-8, SHA-256, HMAC-SHA256 (hashlib / hmac collaborators) -/

/-- Truncation to a 32-bit word, `n % 2^32`. -/
def w32 (n : Nat) : Nat := n % 4294967296

/-- Right rotation of a 32-bit word. -/
def rotr (n x : Nat) : Nat := w32 ((x >>> n) ||| (x <<< (32 - n)))

def bigSigma0 (x : Nat) : Nat := (rotr 2 x) ^^^ (rotr 13 x) ^^^ (rotr 22 x)

def bigSigma1 (x : Nat) : Nat := (rotr 6 x) ^^^ (rotr 11 x) ^^^ (rotr 25 x)

def smallSigma0 (x : Nat) : Nat := (rotr 7 x) ^^^ (rotr 18 x) ^^^ (x >>> 3)

def smallSigma1 (x : Nat) : Nat := (rotr 17 x) ^^^ (rotr 19 x) ^^^ (x >>> 10)

def chFn (x y z : Nat) : Nat := (x &&& y) ^^^ ((x ^^^ 4294967295) &&& z)

def majFn (x y z : Nat) : Nat := (x &&& y) ^^^ (x &&& z) ^^^ (y &&& z)

/-- The 64 SHA-256 round constants of FIPS 180-4 (decimal). -/
def shaK : List Nat :=
  [1116352408, 1899447441, 3049323471, 3921009573, 961987163, 1508970993,
   2453635748, 2870763221, 3624381080, 310598401, 607225278, 1426881987,
   1925078388, 2162078206, 2614888103, 3248222580, 3835390401, 4022224774,
   264347078, 604807628, 770255983, 1249150122, 1555081692, 1996064986,
   2554220882, 2821834349, 2952996808, 3210313671, 3336571891, 3584528711,
   113926993, 338241895, 666307205, 773529912, 1294757372, 1396182291,
   1695183700, 1986661051, 2177026350, 2456956037, 2730485921, 2820302411,
   3259730800, 3345764771, 3516065817, 3600352804, 4094571909, 275423344,
   430227734, 506948616, 659060556, 883997877, 958139571, 1322822218,
   1537002063, 1747873779, 1955562222, 2024104815, 2227730452, 2361852424,
   2428436474, 2756734187, 3204031479, 3329325298]

/-- Big-endian byte decomposition: `k` bytes of `n`. -/
def bytesBE (k n : Nat) : List Nat :=
  (List.range k).map (fun i => (n >>> (8 * (k - 1 - i))) % 256)

/-- SHA-256 message padding: append 0x80, zero bytes to 56 mod 64, then the
bit length as 8 big-endian bytes. -/
def padMessage (msg : List Nat) : List Nat :=
  let len := msg.length
  let padZeros := (119 - len % 64) % 64
  msg ++ [0x80] ++ List.replicate padZeros 0 ++ bytesBE 8 (len * 8)

/-- Split into 64-byte chunks; fuel-based so that it reduces in the kernel
(the fuel `l.length` always suffices because each step drops at least one
element). -/
def toBlocksAux : Nat → List Nat → List (List Nat)
  | 0, _ => []
  | _, [] => []
  | fuel + 1, a :: l => ((a :: l).take 64) :: toBlocksAux fuel ((a :: l).drop 64)

def toBlocks (l : List Nat) : List (List Nat) := toBlocksAux l.length l

/-- Group bytes into big-endian 32-bit words. -/
def wordsBE : List Nat → List Nat
  | a :: b :: c :: d :: rest => (a * 16777216 + b * 65536 + c * 256 + d) :: wordsBE rest
  | _ => []

/-- Extend the 16 message words of a block to the 64-word message schedule. -/
def extendSchedule (w : Array Nat) : Array Nat :=
  (List.range 48).foldl (fun w i =>
    let j := i + 16
    w.push (w32 (smallSigma1 (w.getD (j - 2) 0) + w.getD (j - 7) 0 +
                 smallSigma0 (w.getD (j - 15) 0) + w.getD (j - 16) 0))) w

abbrev Hash8 := Nat × Nat × Nat × Nat × Nat × Nat × Nat × Nat

def shaH0 : Hash8 :=
  (1779033703, 3144134277, 1013904242, 2773480762, 1359893119, 2600822924, 528734635, 1541459225)

def shaRound (s : Hash8) (kt wt : Nat) : Hash8 :=
  match s with
  | (a, b, c, d, e, f, g, h) =>
    let t1 := w32 (h + bigSigma1 e + chFn e f g + kt + wt)
    let t2 := w32 (bigSigma0 a + majFn a b c)
    (w32 (t1 + t2), a, b, c, w32 (d + t1), e, f, g)

def compressBlock (s : Hash8) (block : List Nat) : Hash8 :=
  let ws := extendSchedule (Array.mk (wordsBE block))
  let r := (List.range 64).foldl (fun st i => shaRound st (shaK.getD i 0) (ws.getD i 0)) s
  match s, r with
  | (a0, b0, c0, d0, e0, f0, g0, h0), (a, b, c, d, e, f, g, h) =>
    (w32 (a + a0), w32 (b + b0), w32 (c + c0), w32 (d + d0),
     w32 (e + e0), w32 (f + f0), w32 (g + g0), w32 (h + h0))

/-- SHA-256 of a byte list (the `hashlib.sha256` collaborator). -/
def sha256 (msg : List Nat) : List Nat :=
  match (toBlocks (padMessage msg)).foldl compressBlock shaH0 with
  | (a, b, c, d, e, f, g, h) =>
    bytesBE 4 a ++ bytesBE 4 b ++ bytesBE 4 c ++ bytesBE 4 d ++
    bytesBE 4 e ++ bytesBE 4 f ++ bytesBE 4 g ++ bytesBE 4 h

/-- HMAC-SHA256 (the `hmac.new(key, msg, hashlib.sha256)` collaborator);
block size 64, keys longer than one block are hashed first. -/
def hmacSha256 (key msg : List Nat) : List Nat :=
  let k1 := if key.length > 64 then sha256 key else key
  let k2 := k1 ++ List.replicate (64 - k1.length) 0
  let ipad := k2.map (fun b => b ^^^ 0x36)
  let opad := k2.map (fun b => b ^^^ 0x5c)
  sha256 (opad ++ sha256 (ipad ++ msg))

def hexDigit (n : Nat) : Char := if n < 10 then Char.ofNat (48 + n) else Char.ofNat (87 + n)

def byteHex (b : Nat) : String := String.mk [hexDigit (b / 16), hexDigit (b % 16)]

/-- Lowercase hex encoding of a byte list (Python `.hexdigest()`). -/
def hexOfBytes (bs : List Nat) : String := String.join (bs.map byteHex)

/-- UTF-8 encoding of one character (Python `str.encode` on one code point). -/
def charUtf8 (c : Char) : List Nat :=
  let n := c.toNat
  if n < 0x80 then [n]
  else if n < 0x800 then [0xC0 + n / 64, 0x80 + n % 64]
  else if n < 0x10000 then [0xE0 + n / 4096, 0x80 + (n / 64) % 64, 0x80 + n % 64]
  else [0xF0 + n / 262144, 0x80 + (n / 4096) % 64, 0x80 + (n / 64) % 64, 0x80 + n % 64]

/-- UTF-8 encoding of a string (Python `s.encode('utf-8')`). -/
def utf8Bytes (s : String) : List Nat := (s.data.map charUtf8).flatten

/-! ## JSON documents and `json.dumps` (payloads are arbitrary structured
documents; serialization uses `separators=(',', ':')`, i.e. compact form,
with `ensure_ascii` escaping as Python defaults to) -/

inductive Json where
  | null
  | bool (b : Bool)
  | num (n : Int)
  | str (s : String)
  | arr (elems : List Json)
  | obj (fields : List (String × Json))

mutual

def Json.decEq : (a b : Json) → Decidable (a = b)
  | .null, .null => .isTrue rfl
  | .bool a, .bool b =>
    match inferInstanceAs (Decidable (a = b)) with
    | .isTrue h => .isTrue (by rw [h])
    | .isFalse h => .isFalse (fun hh => h (by injection hh))
  | .num a, .num b =>
    match inferInstanceAs (Decidable (a = b)) with
    | .isTrue h => .isTrue (by rw [h])
    | .isFalse h => .isFalse (fun hh => h (by injection hh))
  | .str a, .str b =>
    match inferInstanceAs (Decidable (a = b)) with
    | .isTrue h => .isTrue (by rw [h])
    | .isFalse h => .isFalse (fun hh => h (by injection hh))
  | .arr xs, .arr ys =>
    match Json.decEqList xs ys with
    | .isTrue h => .isTrue (by rw [h])
    | .isFalse h => .isFalse (fun hh => h (by injection hh))
  | .obj xs, .obj ys =>
    match Json.decEqFields xs ys with
    | .isTrue h => .isTrue (by rw [h])
    | .isFalse h => .isFalse (fun hh => h (by injection hh))
  | .null, .bool _ => .isFalse (by intro h; cases h)
  | .null, .num _ => .isFalse (by intro h; cases h)
  | .null, .str _ => .isFalse (by intro h; cases h)
  | .null, .arr _ => .isFalse (by intro h; cases h)
  | .null, .obj _ => .isFalse (by intro h; cases h)
  | .bool _, .null => .isFalse (by intro h; cases h)
  | .bool _, .num _ => .isFalse (by intro h; cases h)
  | .bool _, .str _ => .isFalse (by intro h; cases h)
  | .bool _, .arr _ => .isFalse (by intro h; cases h)
  | .bool _, .obj _ => .isFalse (by intro h; cases h)
  | .num _, .null => .isFalse (by intro h; cases h)
  | .num _, .bool _ => .isFalse (by intro h; cases h)
  | .num _, .str _ => .isFalse (by intro h; cases h)
  | .num _, .arr _ => .isFalse (by intro h; cases h)
  | .num _, .obj _ => .isFalse (by intro h; cases h)
  | .str _, .null => .isFalse (by intro h; cases h)
  | .str _, .bool _ => .isFalse (by intro h; cases h)
  | .str _, .num _ => .isFalse (by intro h; cases h)
  | .str _, .arr _ => .isFalse (by intro h; cases h)
  | .str _, .obj _ => .isFalse (by intro h; cases h)
  | .arr _, .null => .isFalse (by intro h; cases h)
  | .arr _, .bool _ => .isFalse (by intro h; cases h)
  | .arr _, .num _ => .isFalse (by intro h; cases h)
  | .arr _, .str _ => .isFalse (by intro h; cases h)
  | .arr _, .obj _ => .isFalse (by intro h; cases h)
  | .obj _, .null => .isFalse (by intro h; cases h)
  | .obj _, .bool _ => .isFalse (by intro h; cases h)
  | .obj _, .num _ => .isFalse (by intro h; cases h)
  | .obj _, .str _ => .isFalse (by intro h; cases h)
  | .obj _, .arr _ => .isFalse (by intro h; cases h)

def Json.decEqList : (xs ys : List Json) → Decidable (xs = ys)
  | [], [] => .isTrue rfl
  | [], _ :: _ => .isFalse (by intro h; cases h)
  | _ :: _, [] => .isFalse (by intro h; cases h)
  | x :: xs, y :: ys =>
    match Json.decEq x y with
    | .isTrue h1 =>
      match Json.decEqList xs ys with
      | .isTrue h2 => .isTrue (by rw [h1, h2])
      | .isFalse h2 => .isFalse (fun hh => h2 (by injection hh))
    | .isFalse h1 => .isFalse (fun hh => h1 (by injection hh))

def Json.decEqFields : (xs ys : List (String × Json)) → Decidable (xs = ys)
  | [], [] => .isTrue rfl
  | [], _ :: _ => .isFalse (by intro h; cases h)
  | _ :: _, [] => .isFalse (by intro h; cases h)
  | (s, x) :: xs, (t, y) :: ys =>
    match inferInstanceAs (Decidable (s = t)) with
    | .isTrue hs =>
      match Json.decEq x y with
      | .isTrue h1 =>
        match Json.decEqFields xs ys with
        | .isTrue h2 => .isTrue (by rw [hs, h1, h2])
        | .isFalse h2 => .isFalse (fun hh => h2 (by injection hh))
      | .isFalse h1 => .isFalse (fun hh => h1 (by cases hh; rfl))
    | .isFalse hs => .isFalse (fun hh => hs (by cases hh; rfl))

end

instance : DecidableEq Json := Json.decEq

def hex4 (n : Nat) : String :=
  String.mk [hexDigit (n / 4096 % 16), hexDigit (n / 256 % 16), hexDigit (n / 16 % 16), hexDigit (n % 16)]

/-- Escaping of one character inside a JSON string, as `json.dumps` does with
its default `ensure_ascii=True` (short escapes, `\uXXXX` for other control
and for all non-ASCII characters, surrogate pairs beyond the BMP). -/
def jsonEscapeChar (c : Char) : String :=
  let n := c.toNat
  if c = '"' then "\\\""
  else if c = '\\' then "\\\\"
  else if n = 10 then "\\n"
  else if n = 13 then "\\r"
  else if n = 9 then "\\t"
  else if n = 8 then "\\b"
  else if n = 12 then "\\f"
  else if n < 32 || n ≥ 127 then
    if n < 65536 then "\\u" ++ hex4 n
    else
      let m := n - 65536
      "\\u" ++ hex4 (55296 + m / 1024) ++ "\\u" ++ hex4 (56320 + m % 1024)
  else String.mk [c]

def jsonEscape (s : String) : String := String.join (s.data.map jsonEscapeChar)

mutual

/-- Compact serialization: `json.dumps(value, separators=(',', ':'))`,
preserving insertion order of dict keys as Python does. -/
def Json.dumps : Json → String
  | .null => "null"
  | .bool b => if b then "true" else "false"
  | .num n => toString n
  | .str s => "\"" ++ jsonEscape s ++ "\""
  | .arr xs => "[" ++ Json.dumpsList xs ++ "]"
  | .obj fs => "\x7b" ++ Json.dumpsFields fs ++ "\x7d"

def Json.dumpsList : List Json → String
  | [] => ""
  | [x] => Json.dumps x
  | x :: y :: rest => Json.dumps x ++ "," ++ Json.dumpsList (y :: rest)

def Json.dumpsFields : List (String × Json) → String
  | [] => ""
  | [(k, v)] => "\"" ++ jsonEscape k ++ "\":" ++ Json.dumps v
  | (k, v) :: f :: rest =>
    "\"" ++ jsonEscape k ++ "\":" ++ Json.dumps v ++ "," ++ Json.dumpsFields (f :: rest)

end

/-- `dict.get(key)` over the fields of an object: `None` (here `.null`) when
the key is absent. The handlers of this subsystem only ever call `.get` on
dict payloads; on a non-object the model also answers `.null`. -/
def Json.getField : List (String × Json) → String → Json
  | [], _ => .null
  | (k, v) :: rest, key => if k = key then v else Json.getField rest key

def Json.get (j : Json) (key : String) : Json :=
  match j with
  | .obj fs => Json.getField fs key
  | _ => .null

/-- Python truthiness of a value (`if client_id and new_status:`). -/
def Json.truthy : Json → Bool
  | .null => false
  | .bool b => b
  | .num n => n != 0
  | .str s => !(s == "")
  | .arr xs => !xs.isEmpty
  | .obj fs => !fs.isEmpty

/-- The string content of a value. All payload fields this subsystem passes
onward (client ids, statuses) are strings in every producer; for those this
is the identity on the content, other shapes fall back to their compact
serialization. -/
def Json.pyStr : Json → String
  | .str s => s
  | j => Json.dumps j

/-! ## Logging and HTTP outcomes -/

inductive LogLevel where
  | info
  | warning
  | error
deriving DecidableEq

structure LogEntry where
  level : LogLevel
  msg : String
deriving DecidableEq

/-- What the network produced for one HTTP request: a response (status code
and body text), or an exception raised by the client (timeouts, connection
errors, ...). -/
inductive HttpOutcome where
  | response (status_code : Nat) (text : String)
  | exception (msg : String)
deriving DecidableEq

/-! ## Delivery Records (modules/messaging/models.py: WebhookOut) and the
Webhook Sender (apps/worker/core/messaging.py) -/

/-- `WebhookStatus` enum: queued / sent / failed. -/
inductive WebhookStatus where
  | queued
  | sent
  | failed
deriving DecidableEq

/-- One row of the `webhooks_out` table. Ids are naturals issued by the
store's fresh-id counter (standing for the UUID primary key); timestamps are
opaque strings. -/
structure WebhookOut where
  id : Nat
  event : String
  payload : Json
  status : WebhookStatus
  attempt_count : Nat
  last_error : Option String
  zap_run_id : Option String
  sent_at : Option String
deriving DecidableEq

/-- The Delivery Record store: the rows plus the fresh-id counter (every id
already issued is below `nextId`). -/
structure MessagingDB where
  webhooks : List WebhookOut
  nextId : Nat
deriving DecidableEq

def initialMessagingDB : MessagingDB := { webhooks := [], nextId := 0 }

/-- The slice of `worker_settings` that `send_zapier_webhook` reads. -/
structure ZapSettings where
  ZAPIER_MODE : String
  ZAPIER_CATCH_HOOK_URL : String
  ZAPIER_HMAC_SECRET : String
deriving DecidableEq

/-- The HTTP POST issued by the Webhook Sender. -/
structure ZapRequest where
  url : String
  headers : List (String × String)
  content : String
deriving DecidableEq

/-- `create_webhook_record`: insert a new row with status QUEUED and
`attempt_count = 1`, returning the refreshed row. -/
def create_webhook_record (event_type : String) (payload : Json) (db : MessagingDB) :
    WebhookOut × MessagingDB :=
  let webhook : WebhookOut :=
    { id := db.nextId, event := event_type, payload := payload,
      status := .queued, attempt_count := 1,
      last_error := none, zap_run_id := none, sent_at := none }
  (webhook, { webhooks := db.webhooks ++ [webhook], nextId := db.nextId + 1 })

/-- Row mutation performed by `update_webhook_success`: status SENT, stamp
`sent_at`, store the zap run id. -/
def applyWebhookSuccess (zap_run_id : Option String) (now : String) (w : WebhookOut) : WebhookOut :=
  { w with status := .sent, sent_at := some now, zap_run_id := zap_run_id }

/-- `update_webhook_success(webhook_id, zap_run_id)`: update the row with
that primary key (if any). -/
def update_webhook_success (webhook_id : Nat) (zap_run_id : Option String) (now : String)
    (db : MessagingDB) : MessagingDB :=
  { db with webhooks := db.webhooks.map (fun w =>
      if w.id = webhook_id then applyWebhookSuccess zap_run_id now w else w) }

/-- Row mutation performed by `update_webhook_failure`: increment
`attempt_count`, record the error, and mark FAILED when the incremented
count reaches 3 (otherwise the status is left as it was). -/
def applyWebhookFailure (error_message : String) (w : WebhookOut) : WebhookOut :=
  let n := w.attempt_count + 1
  { w with attempt_count := n, last_error := some error_message,
           status := if n ≥ 3 then .failed else w.status }

/-- `update_webhook_failure(webhook_id, error_message)`: update the row with
that primary key (if any). -/
def update_webhook_failure (webhook_id : Nat) (error_message : String)
    (db : MessagingDB) : MessagingDB :=
  { db with webhooks := db.webhooks.map (fun w =>
      if w.id = webhook_id then applyWebhookFailure error_message w else w) }

/-- The envelope `{'timestamp': ..., 'event': event_type, 'data': payload}`
built by `send_zapier_webhook` before serializing. -/
def webhookEnvelope (now event_type : String) (payload : Json) : Json :=
  Json.obj [("timestamp", .str now), ("event", .str event_type), ("data", payload)]

/-- The hex HMAC-SHA256 signature of the serialized payload under the
configured secret. -/
def zapierSignature (secret payload_json : String) : String :=
  hexOfBytes (hmacSha256 (utf8Bytes secret) (utf8Bytes payload_json))

/-- Everything `send_zapier_webhook` produced: its boolean return value, the
updated Delivery Record store, the HTTP requests it issued and its log
lines. -/
structure SendResult where
  ok : Bool
  db : MessagingDB
  requests : List ZapRequest
  logs : List LogEntry
deriving DecidableEq

/-- `send_zapier_webhook(event_type, payload)`.

`now` stands for `datetime.utcnow().isoformat()` and `outcome` for what the
`httpx` POST produced. Control flow from the source: dev_log mode returns
True immediately; a missing hook URL logs a warning and returns False; the
live path builds the envelope, serializes it compactly, signs it when a
secret is configured, creates the Delivery Record before the network call,
then finalizes the record according to the response (HTTP 200 succeeds,
anything else or a raised exception fails). -/
def send_zapier_webhook (s : ZapSettings) (event_type : String) (payload : Json)
    (now : String) (outcome : HttpOutcome) (db : MessagingDB) : SendResult :=
  if s.ZAPIER_MODE == "dev_log" then
    { ok := true, db := db, requests := [],
      logs := [⟨.info, "[DEV MODE] Zapier webhook: " ++ event_type⟩,
               ⟨.info, "[DEV MODE] Payload: " ++ Json.dumps payload⟩] }
  else if s.ZAPIER_CATCH_HOOK_URL == "" then
    { ok := false, db := db, requests := [],
      logs := [⟨.warning, "Zapier webhook URL not configured"⟩] }
  else
    let webhook_payload := webhookEnvelope now event_type payload
    let payload_json := Json.dumps webhook_payload
    let signature : Option String :=
      if s.ZAPIER_HMAC_SECRET == "" then none
      else some (zapierSignature s.ZAPIER_HMAC_SECRET payload_json)
    let headers :=
      [("Content-Type", "application/json"), ("User-Agent", "BEC-CRM/1.0")] ++
      (match signature with
       | some sig => [("X-Hook-Signature", "sha256=" ++ sig)]
       | none => [])
    let created := create_webhook_record event_type webhook_payload db
    let req : ZapRequest := ⟨s.ZAPIER_CATCH_HOOK_URL, headers, payload_json⟩
    match outcome with
    | .response code text =>
      if code == 200 then
        { ok := true,
          db := update_webhook_success created.1.id (some text) now created.2,
          requests := [req],
          logs := [⟨.info, "Successfully sent Zapier webhook for event: " ++ event_type⟩] }
      else
        let error_msg := "HTTP " ++ toString code ++ ": " ++ text
        { ok := false,
          db := update_webhook_failure created.1.id error_msg created.2,
          requests := [req],
          logs := [⟨.error, "Zapier webhook failed: " ++ error_msg⟩] }
    | .exception msg =>
      { ok := false,
        db := update_webhook_failure created.1.id msg created.2,
        requests := [req],
        logs := [⟨.error, "Error sending Zapier webhook: " ++ msg⟩] }

/-- The filter of the hourly sweep `retry_failed_webhooks`: status QUEUED or
FAILED and `attempt_count < 3`. -/
def retryPred (w : WebhookOut) : Bool :=
  (w.status == .queued || w.status == .failed) && decide (w.attempt_count < 3)

/-- The loop body of `retry_failed_webhooks`: each selected webhook is
resubmitted through `send_zapier_webhook(webhook.event, webhook.payload)`
(which creates a fresh record); the old row is not touched. `env` supplies
the clock reading and network outcome of the i-th resubmission. -/
def retryLoop (s : ZapSettings) (env : Nat → String × HttpOutcome) :
    List WebhookOut → Nat → MessagingDB → MessagingDB
  | [], _, db => db
  | w :: ws, i, db =>
    let e := env i
    retryLoop s env ws (i + 1) (send_zapier_webhook s w.event w.payload e.1 e.2 db).db

/-- `retry_failed_webhooks`: materialize the batch (status QUEUED or FAILED,
attempt_count < 3, capped at 50), then resubmit each through the normal
send path. -/
def retry_failed_webhooks (s : ZapSettings) (env : Nat → String × HttpOutcome)
    (db : MessagingDB) : MessagingDB :=
  retryLoop s env ((db.webhooks.filter retryPred).take 50) 0 db

/-- The operations of this subsystem that touch the Delivery Record store:
a live/dev send (any caller of `send_zapier_webhook`) and the hourly retry
sweep. These are the only code paths that create or mutate records. -/
inductive WorkerOp where
  | send (s : ZapSettings) (event_type : String) (payload : Json)
         (now : String) (outcome : HttpOutcome)
  | retrySweep (s : ZapSettings) (env : Nat → String × HttpOutcome)

def applyOp (db : MessagingDB) : WorkerOp → MessagingDB
  | .send s event_type payload now outcome =>
    (send_zapier_webhook s event_type payload now outcome db).db
  | .retrySweep s env => retry_failed_webhooks s env db

/-- The Delivery Record store after an arbitrary sequence of sends and retry
sweeps, starting from the empty store. -/
def runOps (ops : List WorkerOp) : MessagingDB := ops.foldl applyOp initialMessagingDB

/-! ## Job Queue (apps/worker/core/queue.py) -/

/-- A job enqueued on one of the RQ lanes: the function reference (by name),
its arguments, the timeout/retry options and the metadata
`enqueue_job` attaches. -/
structure Job where
  func : String
  args : List Json
  kwargs : List (String × Json)
  timeout : Nat
  retry : Nat
  meta_enqueued_at : String
  meta_queue : String
  meta_retry_attempts : Nat
deriving DecidableEq

/-- The three priority lanes `high` / `default` / `low`. -/
structure QueueState where
  high : List Job
  default : List Job
  low : List Job
deriving DecidableEq

def emptyQueues : QueueState := { high := [], default := [], low := [] }

def totalJobs (st : QueueState) : Nat := st.high.length + st.default.length + st.low.length

/-- `QUEUES.get(queue, DEFAULT_QUEUE)` followed by `selected_queue.enqueue`:
an unknown lane name falls back to the default lane. -/
def enqueueTo (queue : String) (j : Job) (st : QueueState) : QueueState :=
  if queue == "high" then { st with high := st.high ++ [j] }
  else if queue == "default" then { st with default := st.default ++ [j] }
  else if queue == "low" then { st with low := st.low ++ [j] }
  else { st with default := st.default ++ [j] }

/-- `JobManager.enqueue_job(func, args, kwargs, queue, job_timeout,
retry_attempts)`: build the job with its metadata (`now` stands for
`datetime.utcnow().isoformat()`) and append it to the selected lane,
returning the job. -/
def JobManager.enqueue_job (func : String) (args : List Json)
    (kwargs : List (String × Json)) (queue : String)
    (job_timeout retry_attempts : Nat) (now : String) (st : QueueState) :
    Job × QueueState :=
  let job : Job :=
    { func := func, args := args, kwargs := kwargs,
      timeout := job_timeout, retry := retry_attempts,
      meta_enqueued_at := now, meta_queue := queue,
      meta_retry_attempts := retry_attempts }
  (job, enqueueTo queue job st)

/-- `JobManager.schedule_periodic_job(func, schedule, args, kwargs, queue)`:
builds the synthetic id `periodic_funcname_schedule` and immediately
enqueues the function once via `enqueue_job` (with the latter's default
`job_timeout=300`, `retry_attempts=3`); there is no integration with any
cron scheduler. -/
def JobManager.schedule_periodic_job (func schedule : String) (args : List Json)
    (kwargs : Option (List (String × Json))) (queue now : String) (st : QueueState) :
    String × QueueState :=
  let job_id := "periodic_" ++ func ++ "_" ++ schedule
  (job_id, (JobManager.enqueue_job func args (kwargs.getD []) queue 300 3 now st).2)

/-- `EventPublisher.publish_event(event_type, payload, queue)`: enqueue a
`process_event` job with `job_timeout=60`. -/
def EventPublisher.publish_event (event_type : String) (payload : Json)
    (queue now : String) (st : QueueState) : QueueState :=
  (JobManager.enqueue_job "process_event" [Json.str event_type, payload] [] queue 60 3 now st).2

/-- `EventPublisher.krc_meetup_announce()`: a staticmethod declared with NO
parameters, whose body publishes the `krc_meetup_announce` event with an
empty payload on the default lane. -/
def EventPublisher.krc_meetup_announce (now : String) (st : QueueState) : QueueState :=
  EventPublisher.publish_event "krc_meetup_announce" (Json.obj []) "default" now st

/-- The number of parameters in the source declaration of
`EventPublisher.krc_meetup_announce` (it takes none). -/
def krcMeetupAnnounceParamCount : Nat := 0

/-! ## Scheduler (apps/worker/core/scheduler.py) -/

inductive PyErr where
  | typeError (msg : String)
deriving DecidableEq

/-- Python call semantics: invoking a plain function with the wrong number
of positional arguments raises TypeError without the body ever running. -/
def pyCall (funcName : String) (paramCount argCount : Nat) (result : α) : Except PyErr α :=
  if argCount = paramCount then .ok result
  else .error (.typeError (funcName ++ "() takes " ++ toString paramCount ++
    " positional arguments but " ++ toString argCount ++ " was given"))

/-- The date data `schedule_krc_meetup_announcement` reads off
`datetime.now().date()`: the day of month of `today` (1-based) and the
`weekday()` of the first day of today's month (0 = Monday, so Tuesday is 1).
The source computes `first_day = today.replace(day=1)`,
`first_tuesday = first_day + timedelta(days=(1 - first_day.weekday()) % 7)`
and `second_tuesday = first_tuesday + timedelta(days=7)`; both land inside
the same month (days 1-7 and 8-14), so comparing the dates amounts to
comparing days of month. -/
structure SchedDate where
  weekdayOfFirst : Fin 7
  dayOfMonth : Nat

/-- Day of month of the first Tuesday: `1 + (1 - first_day.weekday()) % 7`,
with Python's nonnegative `%` on a possibly negative left operand. -/
def firstTuesdayDom (d : SchedDate) : Nat :=
  1 + (((1 : Int) - (d.weekdayOfFirst : Int)).emod 7).toNat

/-- Day of month of the second Tuesday: first Tuesday plus seven days. -/
def secondTuesdayDom (d : SchedDate) : Nat := firstTuesdayDom d + 7

/-- `schedule_krc_meetup_announcement()`: on any date other than the second
Tuesday it only logs and returns. On the second Tuesday the source invokes
`EventPublisher.krc_meetup_announce({'date': ..., 'month': ...})` with ONE
positional argument, while that staticmethod is declared with zero
parameters, so per Python call semantics the call raises TypeError before
anything is published; the raise propagates (this function has no
try/except). -/
def schedule_krc_meetup_announcement (d : SchedDate) (now : String) (st : QueueState) :
    Except PyErr QueueState :=
  let first_tuesday := firstTuesdayDom d
  let second_tuesday := first_tuesday + 7
  if d.dayOfMonth = second_tuesday then
    pyCall "krc_meetup_announce" krcMeetupAnnounceParamCount 1
      (EventPublisher.krc_meetup_announce now st)
  else
    .ok st

/-- `setup_scheduled_jobs()`: the five registrations, in source order, with
their cron strings and lanes. -/
def setup_scheduled_jobs (now : String) (st : QueueState) : QueueState :=
  let st1 := (JobManager.schedule_periodic_job "schedule_membership_expiry_check"
    "0 9 * * *" [] none "default" now st).2
  let st2 := (JobManager.schedule_periodic_job "schedule_monthly_checkin_reminder"
    "0 10 15 * *" [] none "default" now st1).2
  let st3 := (JobManager.schedule_periodic_job "schedule_krc_meetup_announcement"
    "0 10 * * 2" [] none "default" now st2).2
  let st4 := (JobManager.schedule_periodic_job "schedule_webhook_retry"
    "0 * * * *" [] none "low" now st3).2
  (JobManager.schedule_periodic_job "schedule_ggleap_sync"
    "0 2 * * *" [] none "low" now st4).2

/-! ## ggLeap group reconciliation (apps/worker/core/ggleap.py and
modules/ggleap/models.py) -/

/-- The slice of `worker_settings` the ggLeap module reads. -/
structure GgSettings where
  FEATURE_GGLEAP_SYNC : Bool
  GGLEAP_BASE_URL : String
  GGLEAP_API_KEY : String
deriving DecidableEq

/-- A `ggleap_links` row for one client (only the field this subsystem
reads). -/
structure GgleapLink where
  ggleap_user_id : String
deriving DecidableEq

/-- A `ggleap_groups` row (only the field this subsystem reads). -/
structure GgleapGroup where
  ggleap_group_id : String
deriving DecidableEq

/-- The configuration rows `update_client_ggleap_group` queries: the first
`GgleapLink` with the given client id, and the unique rows with map_key
ACTIVE resp. EXPIRED. -/
structure GgleapDB where
  linkFor : String → Option GgleapLink
  active_group : Option GgleapGroup
  expired_group : Option GgleapGroup

/-- The HTTP calls of the access-control client:
`POST {base}/groups/{group_id}/members` with body `{'user_id': ...}`,
`DELETE {base}/groups/{group_id}/members/{user_id}`, and
`GET {base}/users/{user_id}`. -/
inductive GgHttpCall where
  | addMember (group_id user_id : String)
  | removeMember (group_id user_id : String)
  | getUser (user_id : String)
deriving DecidableEq

/-- `GgLeapAPI.add_user_to_group`: no call without an API key; otherwise the
POST is issued, 200/201 counts as success, any other status or a raised
exception is caught, logged and returned as False. -/
def GgLeapAPI.add_user_to_group (s : GgSettings) (user_id group_id : String)
    (outcome : HttpOutcome) : Bool × List GgHttpCall × List LogEntry :=
  if s.GGLEAP_API_KEY == "" then
    (false, [], [⟨.warning, "ggLeap API key not configured"⟩])
  else
    match outcome with
    | .response code text =>
      if code == 200 || code == 201 then
        (true, [.addMember group_id user_id],
         [⟨.info, "Added user " ++ user_id ++ " to group " ++ group_id⟩])
      else
        (false, [.addMember group_id user_id],
         [⟨.error, "Failed to add user to group: " ++ toString code ++ " - " ++ text⟩])
    | .exception msg =>
      (false, [.addMember group_id user_id],
       [⟨.error, "Error adding user to ggLeap group: " ++ msg⟩])

/-- `GgLeapAPI.remove_user_from_group`: as above with DELETE and success
codes 200/204. -/
def GgLeapAPI.remove_user_from_group (s : GgSettings) (user_id group_id : String)
    (outcome : HttpOutcome) : Bool × List GgHttpCall × List LogEntry :=
  if s.GGLEAP_API_KEY == "" then
    (false, [], [⟨.warning, "ggLeap API key not configured"⟩])
  else
    match outcome with
    | .response code text =>
      if code == 200 || code == 204 then
        (true, [.removeMember group_id user_id],
         [⟨.info, "Removed user " ++ user_id ++ " from group " ++ group_id⟩])
      else
        (false, [.removeMember group_id user_id],
         [⟨.error, "Failed to remove user from group: " ++ toString code ++ " - " ++ text⟩])
    | .exception msg =>
      (false, [.removeMember group_id user_id],
       [⟨.error, "Error removing user from ggLeap group: " ++ msg⟩])

/-- Which API-client methods the reconciler invoked, in order (each leg is
invoked whatever the other leg returned). -/
inductive GgLegCall where
  | add (user_id group_id : String)
  | remove (user_id group_id : String)
deriving DecidableEq

/-- What one reconciliation call produced. Every raise site in the source
body is enclosed in try/except (per leg inside the API client, and a broad
except around the whole body), so the function always returns normally and
the embedding is total. -/
structure ReconcileResult where
  invocations : List GgLegCall
  calls : List GgHttpCall
  logs : List LogEntry
deriving DecidableEq

/-- `update_client_ggleap_group(client_id, membership_status)`.

Control flow from the source: feature flag off → log and return; no
`GgleapLink` row for the client → log and return; either group mapping row
missing → log an error and return (before any API client is constructed);
otherwise invoke add-then-remove against the groups selected by
`membership_status == 'active'`. `o1`/`o2` are the network outcomes of the
two legs. -/
def update_client_ggleap_group (s : GgSettings) (db : GgleapDB)
    (client_id membership_status : String) (o1 o2 : HttpOutcome) : ReconcileResult :=
  if !s.FEATURE_GGLEAP_SYNC then
    { invocations := [], calls := [], logs := [⟨.info, "ggLeap sync feature disabled"⟩] }
  else
    match db.linkFor client_id with
    | none =>
      { invocations := [], calls := [],
        logs := [⟨.info, "No ggLeap link found for client " ++ client_id⟩] }
    | some link =>
      match db.active_group, db.expired_group with
      | some active_group, some expired_group =>
        let user_id := link.ggleap_user_id
        if membership_status == "active" then
          let r1 := GgLeapAPI.add_user_to_group s user_id active_group.ggleap_group_id o1
          let r2 := GgLeapAPI.remove_user_from_group s user_id expired_group.ggleap_group_id o2
          { invocations := [.add user_id active_group.ggleap_group_id,
                            .remove user_id expired_group.ggleap_group_id],
            calls := r1.2.1 ++ r2.2.1,
            logs := r1.2.2 ++ r2.2.2 ++
              [⟨.info, "Updated ggLeap groups for client " ++ client_id ++
                " with status " ++ membership_status⟩] }
        else
          let r1 := GgLeapAPI.add_user_to_group s user_id expired_group.ggleap_group_id o1
          let r2 := GgLeapAPI.remove_user_from_group s user_id active_group.ggleap_group_id o2
          { invocations := [.add user_id expired_group.ggleap_group_id,
                            .remove user_id active_group.ggleap_group_id],
            calls := r1.2.1 ++ r2.2.1,
            logs := r1.2.2 ++ r2.2.2 ++
              [⟨.info, "Updated ggLeap groups for client " ++ client_id ++
                " with status " ++ membership_status⟩] }
      | _, _ =>
        { invocations := [], calls := [],
          logs := [⟨.error, "ggLeap group mappings not configured"⟩] }

/-! ## A deterministic model of the external access-control service, for the
idempotence property: its state is the set of (user, group) memberships;
adding is idempotent (200 when already a member, 201 when added), removing a
non-member fails with 404 and leaves the state unchanged. -/

abbrev GgExtState := List (String × String)

def svcApply (st : GgExtState) : GgHttpCall → GgExtState × HttpOutcome
  | .addMember group_id user_id =>
    if (user_id, group_id) ∈ st then (st, .response 200 "already a member")
    else ((user_id, group_id) :: st, .response 201 "added")
  | .removeMember group_id user_id =>
    if (user_id, group_id) ∈ st then
      (st.filter (fun p => decide (p ≠ (user_id, group_id))), .response 204 "removed")
    else (st, .response 404 "not a member")
  | .getUser _ => (st, .response 200 "")

/-- Run a list of HTTP calls against the service model, returning the final
state and the outcome of each call. -/
def execCalls (st : GgExtState) : List GgHttpCall → GgExtState × List HttpOutcome
  | [] => (st, [])
  | c :: cs =>
    let r1 := svcApply st c
    let r2 := execCalls r1.1 cs
    (r2.1, r1.2 :: r2.2)

/-! ## Event Router (apps/worker/core/events.py) -/

/-- The configuration and per-run inputs a `process_event` execution reads:
feature flags, the Zapier settings, the ggLeap settings and configuration
rows, the clock reading, and the network outcomes consumed by whichever
handler runs (`outcome` for the webhook POST, `o1`/`o2` for the two ggLeap
legs). -/
structure EventCtx where
  FEATURE_MESSAGING : Bool
  zap : ZapSettings
  gg : GgSettings
  ggdb : GgleapDB
  now : String
  outcome : HttpOutcome
  o1 : HttpOutcome
  o2 : HttpOutcome

/-- Everything one `process_event` execution produced: the Delivery Record
store, the webhook POSTs, the access-control HTTP calls, and the log
lines. -/
structure ProcessResult where
  db : MessagingDB
  requests : List ZapRequest
  ggCalls : List GgHttpCall
  logs : List LogEntry
deriving DecidableEq

/-- `handle_client_created`: messaging flag gate, then send the welcome
webhook built from the payload fields. -/
def handle_client_created (ctx : EventCtx) (payload : Json) (db : MessagingDB) : ProcessResult :=
  if !ctx.FEATURE_MESSAGING then
    { db := db, requests := [], ggCalls := [],
      logs := [⟨.info, "Messaging feature disabled, skipping welcome message"⟩] }
  else
    let welcome_payload := Json.obj
      [("event", .str "client_welcome"),
       ("client_id", payload.get "client_id"),
       ("name", payload.get "name"),
       ("phone", payload.get "phone"),
       ("email", payload.get "email"),
       ("message_type", .str "welcome_sms")]
    let r := send_zapier_webhook ctx.zap "client.created" welcome_payload ctx.now ctx.outcome db
    { db := r.db, requests := r.requests, ggCalls := [],
      logs := r.logs ++
        [⟨.info, "Sent welcome message for client " ++ (payload.get "client_id").pyStr⟩] }

/-- `handle_membership_expiring`: messaging flag gate, then send the expiry
reminder webhook. -/
def handle_membership_expiring (ctx : EventCtx) (payload : Json) (db : MessagingDB) : ProcessResult :=
  if !ctx.FEATURE_MESSAGING then
    { db := db, requests := [], ggCalls := [],
      logs := [⟨.info, "Messaging feature disabled, skipping expiry reminder"⟩] }
  else
    let reminder_payload := Json.obj
      [("event", .str "membership_expiring"),
       ("client_id", payload.get "client_id"),
       ("name", payload.get "name"),
       ("phone", payload.get "phone"),
       ("expires_on", payload.get "expires_on"),
       ("plan_code", payload.get "plan_code"),
       ("message_type", .str "expiry_reminder")]
    let r := send_zapier_webhook ctx.zap "membership.expiring_30d" reminder_payload ctx.now ctx.outcome db
    { db := r.db, requests := r.requests, ggCalls := [],
      logs := r.logs ++
        [⟨.info, "Sent expiry reminder for membership " ++ (payload.get "membership_id").pyStr⟩] }

/-- `handle_membership_status_changed`: sync flag gate, then reconcile the
client's groups when both `client_id` and `new_status` are truthy (the
producers of this event send them as strings). -/
def handle_membership_status_changed (ctx : EventCtx) (payload : Json) (db : MessagingDB) :
    ProcessResult :=
  if !ctx.gg.FEATURE_GGLEAP_SYNC then
    { db := db, requests := [], ggCalls := [],
      logs := [⟨.info, "ggLeap sync feature disabled, skipping group update"⟩] }
  else
    let client_id := payload.get "client_id"
    let new_status := payload.get "new_status"
    if client_id.truthy && new_status.truthy then
      let r := update_client_ggleap_group ctx.gg ctx.ggdb client_id.pyStr new_status.pyStr ctx.o1 ctx.o2
      { db := db, requests := [], ggCalls := r.calls,
        logs := r.logs ++
          [⟨.info, "Updated ggLeap group for client " ++ client_id.pyStr⟩] }
    else
      { db := db, requests := [], ggCalls := [], logs := [] }

/-- `handle_client_not_checked_in`: messaging flag gate, then send the
check-in reminder webhook. -/
def handle_client_not_checked_in (ctx : EventCtx) (payload : Json) (db : MessagingDB) :
    ProcessResult :=
  if !ctx.FEATURE_MESSAGING then
    { db := db, requests := [], ggCalls := [],
      logs := [⟨.info, "Messaging feature disabled, skipping check-in reminder"⟩] }
  else
    let reminder_payload := Json.obj
      [("event", .str "checkin_reminder"),
       ("client_id", payload.get "client_id"),
       ("name", payload.get "name"),
       ("phone", payload.get "phone"),
       ("message_type", .str "checkin_reminder")]
    let r := send_zapier_webhook ctx.zap "client.not_checked_in_mid_month" reminder_payload ctx.now ctx.outcome db
    { db := r.db, requests := r.requests, ggCalls := [],
      logs := r.logs ++
        [⟨.info, "Sent check-in reminder for client " ++ (payload.get "client_id").pyStr⟩] }

/-- `handle_krc_meetup_announce`: messaging flag gate, then send the
announcement webhook. -/
def handle_krc_meetup_announce (ctx : EventCtx) (payload : Json) (db : MessagingDB) :
    ProcessResult :=
  if !ctx.FEATURE_MESSAGING then
    { db := db, requests := [], ggCalls := [],
      logs := [⟨.info, "Messaging feature disabled, skipping meetup announcement"⟩] }
  else
    let announcement_payload := Json.obj
      [("event", .str "krc_meetup_announce"),
       ("message_type", .str "meetup_announcement"),
       ("krc_meetup", Json.obj
         [("date", payload.get "date"),
          ("location", .str "Bakersfield eSports Center"),
          ("details", .str "Monthly KRC meetup - all members welcome!")])]
    let r := send_zapier_webhook ctx.zap "krc_meetup_announce" announcement_payload ctx.now ctx.outcome db
    { db := r.db, requests := r.requests, ggCalls := [],
      logs := r.logs ++ [⟨.info, "Sent KRC meetup announcement"⟩] }

/-- `process_event(event_type, payload)`: the if/elif dispatch over the five
known event types; any other event type is logged with a warning and dropped
(the final else raises nothing, so nothing propagates). The handlers of this
embedding are total because every raise site of the handlers' bodies is
caught in the source (the webhook POST and both ggLeap legs each sit inside
try/except blocks that convert errors into return values). -/
def process_event (ctx : EventCtx) (event_type : String) (payload : Json)
    (db : MessagingDB) : ProcessResult :=
  let head : LogEntry := ⟨.info, "Processing event: " ++ event_type⟩
  if event_type == "client.created" then
    let r := handle_client_created ctx payload db
    { r with logs := head :: r.logs }
  else if event_type == "membership.expiring_30d" then
    let r := handle_membership_expiring ctx payload db
    { r with logs := head :: r.logs }
  else if event_type == "membership.status_changed" then
    let r := handle_membership_status_changed ctx payload db
    { r with logs := head :: r.logs }
  else if event_type == "client.not_checked_in_mid_month" then
    let r := handle_client_not_checked_in ctx payload db
    { r with logs := head :: r.logs }
  else if event_type == "krc_meetup_announce" then
    let r := handle_krc_meetup_announce ctx payload db
    { r with logs := head :: r.logs }
  else
    { db := db, requests := [], ggCalls := [],
      logs := [head, ⟨.warning, "Unknown event type: " ++ event_type⟩] }

/-- The store invariant maintained by every code path of the subsystem:
every issued id is below the fresh-id counter, every record's attempt count
is 1 or 2, and no record is in status FAILED. -/
def MessagingInv (db : MessagingDB) : Prop :=
  ∀ w ∈ db.webhooks,
    w.id < db.nextId ∧ 1 ≤ w.attempt_count ∧ w.attempt_count ≤ 2 ∧ w.status ≠ .failed

/-! ## Lemmas -/

lemma messagingInv_init : MessagingInv initialMessagingDB := by
  intro w hw
  simp [initialMessagingDB] at hw

lemma inv_create_then_success (zap_run_id : Option String) (now event_type : String)
    (payload : Json) (db : MessagingDB) (h : MessagingInv db) :
    MessagingInv (update_webhook_success (create_webhook_record event_type payload db).1.id
      zap_run_id now (create_webhook_record event_type payload db).2) := by
  intro w hw
  simp only [create_webhook_record, update_webhook_success, List.map_append,
    List.mem_append, List.map_cons, List.map_nil, List.mem_map] at hw
  rcases hw with ⟨a, ha, rfl⟩ | hw
  · rcases h a ha with ⟨hid, h1, h2, h3⟩
    rw [if_neg (Nat.ne_of_lt hid)]
    exact ⟨Nat.lt_succ_of_lt hid, h1, h2, h3⟩
  · simp only [List.mem_singleton] at hw
    subst hw
    simp [applyWebhookSuccess, update_webhook_success, create_webhook_record, Nat.lt_succ_self]

lemma inv_create_then_failure (error_message event_type : String)
    (payload : Json) (db : MessagingDB) (h : MessagingInv db) :
    MessagingInv (update_webhook_failure (create_webhook_record event_type payload db).1.id
      error_message (create_webhook_record event_type payload db).2) := by
  intro w hw
  simp only [create_webhook_record, update_webhook_failure, List.map_append,
    List.mem_append, List.map_cons, List.map_nil, List.mem_map] at hw
  rcases hw with ⟨a, ha, rfl⟩ | hw
  · rcases h a ha with ⟨hid, h1, h2, h3⟩
    rw [if_neg (Nat.ne_of_lt hid)]
    exact ⟨Nat.lt_succ_of_lt hid, h1, h2, h3⟩
  · simp only [List.mem_singleton] at hw
    subst hw
    simp [applyWebhookFailure, update_webhook_failure, create_webhook_record, Nat.lt_succ_self]

lemma send_preserves_inv (s : ZapSettings) (event_type : String) (payload : Json)
    (now : String) (outcome : HttpOutcome) (db : MessagingDB) (h : MessagingInv db) :
    MessagingInv (send_zapier_webhook s event_type payload now outcome db).db := by
  unfold send_zapier_webhook
  by_cases h1 : (s.ZAPIER_MODE == "dev_log") = true
  · simp only [h1, if_true]
    exact h
  · simp only [eq_false_of_ne_true h1, if_false]
    by_cases h2 : (s.ZAPIER_CATCH_HOOK_URL == "") = true
    · simp only [h2, if_true]
      exact h
    · simp only [eq_false_of_ne_true h2, if_false]
      cases outcome with
      | response code text =>
        by_cases h3 : (code == 200) = true
        · simp only [h3, if_true]
          exact inv_create_then_success _ _ _ _ _ h
        · simp only [eq_false_of_ne_true h3, if_false]
          exact inv_create_then_failure _ _ _ _ h
      | exception msg =>
        exact inv_create_then_failure _ _ _ _ h

lemma retryLoop_preserves_inv (s : ZapSettings) (env : Nat → String × HttpOutcome) :
    ∀ (ws : List WebhookOut) (i : Nat) (db : MessagingDB),
      MessagingInv db → MessagingInv (retryLoop s env ws i db) := by
  intro ws
  induction ws with
  | nil => intro i db h; exact h
  | cons w ws ih =>
    intro i db h
    exact ih _ _ (send_preserves_inv _ _ _ _ _ _ h)

lemma retry_preserves_inv (s : ZapSettings) (env : Nat → String × HttpOutcome)
    (db : MessagingDB) (h : MessagingInv db) :
    MessagingInv (retry_failed_webhooks s env db) :=
  retryLoop_preserves_inv s env _ 0 db h

lemma applyOp_preserves_inv (db : MessagingDB) (op : WorkerOp) (h : MessagingInv db) :
    MessagingInv (applyOp db op) := by
  cases op with
  | send s event_type payload now outcome => exact send_preserves_inv _ _ _ _ _ _ h
  | retrySweep s env => exact retry_preserves_inv _ _ _ h

lemma foldl_preserves_inv : ∀ (ops : List WorkerOp) (db : MessagingDB),
    MessagingInv db → MessagingInv (ops.foldl applyOp db) := by
  intro ops
  induction ops with
  | nil => intro db h; exact h
  | cons op ops ih => intro db h; exact ih _ (applyOp_preserves_inv _ _ h)

lemma map_update_untouched (l : List WebhookOut) (n : Nat) (g : WebhookOut → WebhookOut)
    (h : ∀ w ∈ l, w.id < n) :
    (l.map fun w => if w.id = n then g w else w) = l := by
  induction l with
  | nil => rfl
  | cons a l ih =>
    simp only [List.map_cons, List.cons.injEq]
    constructor
    · exact if_neg (Nat.ne_of_lt (h a (List.mem_cons_self a l)))
    · exact ih (fun w hw => h w (List.mem_cons_of_mem a hw))

/-- A live or dev send only ever appends to the record store: the rows that
were already present are left exactly as they were. -/
lemma send_appends (s : ZapSettings) (event_type : String) (payload : Json)
    (now : String) (outcome : HttpOutcome) (db : MessagingDB) (h : MessagingInv db) :
    ∃ tail, (send_zapier_webhook s event_type payload now outcome db).db.webhooks =
      db.webhooks ++ tail := by
  have hids : ∀ w ∈ db.webhooks, w.id < db.nextId := fun w hw => (h w hw).1
  unfold send_zapier_webhook
  by_cases h1 : (s.ZAPIER_MODE == "dev_log") = true
  · exact ⟨[], by simp [h1]⟩
  · simp only [eq_false_of_ne_true h1, if_false]
    by_cases h2 : (s.ZAPIER_CATCH_HOOK_URL == "") = true
    · exact ⟨[], by simp [h2]⟩
    · simp only [eq_false_of_ne_true h2, if_false]
      cases outcome with
      | response code text =>
        by_cases h3 : (code == 200) = true
        · simp only [h3, if_true, update_webhook_success, create_webhook_record,
            List.map_append, List.map_cons, List.map_nil]
          rw [map_update_untouched _ _ _ hids]
          exact ⟨_, rfl⟩
        · simp only [eq_false_of_ne_true h3, if_false, update_webhook_failure,
            create_webhook_record, List.map_append, List.map_cons, List.map_nil]
          rw [map_update_untouched _ _ _ hids]
          exact ⟨_, rfl⟩
      | exception msg =>
        simp only [update_webhook_failure, create_webhook_record,
          List.map_append, List.map_cons, List.map_nil]
        rw [map_update_untouched _ _ _ hids]
        exact ⟨_, rfl⟩

lemma retryLoop_appends (s : ZapSettings) (env : Nat → String × HttpOutcome) :
    ∀ (ws : List WebhookOut) (i : Nat) (db : MessagingDB), MessagingInv db →
      ∃ tail, (retryLoop s env ws i db).webhooks = db.webhooks ++ tail := by
  intro ws
  induction ws with
  | nil => intro i db _; exact ⟨[], (List.append_nil _).symm⟩
  | cons w ws ih =>
    intro i db h
    obtain ⟨t1, ht1⟩ := send_appends s w.event w.payload (env i).1 (env i).2 db h
    obtain ⟨t2, ht2⟩ := ih (i + 1) _ (send_preserves_inv s w.event w.payload (env i).1 (env i).2 db h)
    exact ⟨t1 ++ t2, by rw [retryLoop, ht2, ht1, List.append_assoc]⟩

/-! ## Claims -/

/-- C2: every Delivery Record created by the send path is finalized at most
once. Along any sequence of sends and hourly retry sweeps starting from the
empty store, every record has attempt_count 1 or 2 and is never in status
Failed; records are created with attempt_count 1 in status Queued; and a
retry sweep leaves all pre-existing rows exactly as they were (it resubmits
through the normal send path, which creates brand-new records, so no old
record is ever incremented again). -/
theorem delivery_record_attempts_bounded :
    (∀ (ops : List WorkerOp) (w : WebhookOut), w ∈ (runOps ops).webhooks →
      1 ≤ w.attempt_count ∧ w.attempt_count ≤ 2 ∧ w.status ≠ .failed) ∧
    (∀ (event_type : String) (payload : Json) (db : MessagingDB),
      (create_webhook_record event_type payload db).1.attempt_count = 1 ∧
      (create_webhook_record event_type payload db).1.status = .queued) ∧
    (∀ (s : ZapSettings) (env : Nat → String × HttpOutcome) (ops : List WorkerOp),
      (retry_failed_webhooks s env (runOps ops)).webhooks.take (runOps ops).webhooks.length =
        (runOps ops).webhooks) := by
  refine ⟨?_, ?_, ?_⟩
  · intro ops w hw
    have h := foldl_preserves_inv ops initialMessagingDB messagingInv_init w hw
    exact ⟨h.2.1, h.2.2.1, h.2.2.2⟩
  · intro event_type payload db
    exact ⟨rfl, rfl⟩
  · intro s env ops
    obtain ⟨tail, htail⟩ := retryLoop_appends s env _ 0 (runOps ops)
      (foldl_preserves_inv ops initialMessagingDB messagingInv_init)
    rw [retry_failed_webhooks, htail, List.take_left]

/-- Witness for C2 at a concrete input: one live send against an endpoint
answering HTTP 500 leaves a single record with attempt_count 2, not Failed. -/
theorem delivery_record_attempts_bounded_witness :
    1 ≤ (2 : Nat) ∧ (2 : Nat) ≤ 2 ∧ WebhookStatus.queued ≠ WebhookStatus.failed :=
  delivery_record_attempts_bounded.1
    [.send ⟨"production", "https://hooks.example/catch", ""⟩ "client.created"
      (Json.obj []) "2025-01-15T09:00:00" (.response 500 "boom")]
    { id := 0, event := "client.created",
      payload := webhookEnvelope "2025-01-15T09:00:00" "client.created" (Json.obj []),
      status := .queued, attempt_count := 2, last_error := some "HTTP 500: boom",
      zap_run_id := none, sent_at := none }
    (by decide)

/-- C1: the claimed scenario fails on the code. Sending the same event in
live mode (secret configured) against an endpoint answering HTTP 500 three
times in a row leaves THREE separate Delivery Records, each finalized at
attempt_count 2 with status Queued; no record ever reaches attempt_count 3
or status Failed (each send creates a fresh record and updates it exactly
once, and the retry sweep resubmits via the send path instead of updating
the old row, so the `attempt_count >= 3` branch of `update_webhook_failure`
is unreachable). -/
theorem webhook_three_consecutive_failures_not_failed :
    ((runOps (List.replicate 3 (WorkerOp.send
        ⟨"production", "https://hooks.zapier.com/catch/1", "s3cr3t"⟩
        "membership.expiring_30d" (Json.obj [("client_id", Json.str "c1")])
        "2025-01-15T09:00:00" (.response 500 "Internal Server Error")))).webhooks.map
      (fun w => (w.status, w.attempt_count, w.last_error)) =
      [(.queued, 2, some "HTTP 500: Internal Server Error"),
       (.queued, 2, some "HTTP 500: Internal Server Error"),
       (.queued, 2, some "HTTP 500: Internal Server Error")]) ∧
    ((runOps (List.replicate 3 (WorkerOp.send
        ⟨"production", "https://hooks.zapier.com/catch/1", "s3cr3t"⟩
        "membership.expiring_30d" (Json.obj [("client_id", Json.str "c1")])
        "2025-01-15T09:00:00" (.response 500 "Internal Server Error")))).webhooks.all
      (fun w => decide (w.status ≠ .failed) && decide (w.attempt_count ≠ 3)) = true) := by
  constructor
  · rfl
  · rfl

/-- C3: the claimed behavior fails on the code at its "when" direction. On a
date that IS the second Tuesday (first occurrence of Tuesday in the month
plus seven days — e.g. day 9 of a month whose first day is a Monday, such as
2025-09-09), the trigger raises TypeError instead of publishing: the source
calls `EventPublisher.krc_meetup_announce({...})` with one positional
argument while that staticmethod takes none. On every other date (including
the third occurrence of the weekday, day 16 of such a month) it publishes
nothing and returns normally, as claimed. -/
theorem meetup_announcement_never_published :
    (schedule_krc_meetup_announcement ⟨(0 : Fin 7), 9⟩ "2025-09-09T10:00:00" emptyQueues =
      .error (.typeError
        "krc_meetup_announce() takes 0 positional arguments but 1 was given")) ∧
    (∀ (d : SchedDate) (now : String) (st : QueueState),
      d.dayOfMonth ≠ secondTuesdayDom d →
      schedule_krc_meetup_announcement d now st = .ok st) := by
  constructor
  · rfl
  · intro d now st hne
    unfold schedule_krc_meetup_announcement
    exact if_neg hne

/-- Witness for C3 at a concrete no-op date: the third Tuesday (day 16 of a
month starting on Monday, e.g. 2025-09-16) publishes nothing and returns
normally — the spec's Scenario D. -/
theorem meetup_announcement_never_published_witness :
    schedule_krc_meetup_announcement ⟨(0 : Fin 7), 16⟩ "2025-09-16T10:00:00" emptyQueues =
      .ok emptyQueues :=
  meetup_announcement_never_published.2 ⟨(0 : Fin 7), 16⟩ "2025-09-16T10:00:00" emptyQueues
    (by decide)

lemma totalJobs_enqueueTo (queue : String) (j : Job) (st : QueueState) :
    totalJobs (enqueueTo queue j st) = totalJobs st + 1 := by
  unfold enqueueTo totalJobs
  by_cases h1 : (queue == "high") = true
  · simp [h1]; omega
  · simp only [eq_false_of_ne_true h1, if_false]
    by_cases h2 : (queue == "default") = true
    · simp [h2]; omega
    · simp only [eq_false_of_ne_true h2, if_false]
      by_cases h3 : (queue == "low") = true
      · simp [h3]; omega
      · simp only [eq_false_of_ne_true h3, if_false]
        simp; omega

lemma totalJobs_schedule_periodic (func schedule : String) (args : List Json)
    (kwargs : Option (List (String × Json))) (queue now : String) (st : QueueState) :
    totalJobs (JobManager.schedule_periodic_job func schedule args kwargs queue now st).2 =
      totalJobs st + 1 :=
  totalJobs_enqueueTo queue _ st

/-- C4: `schedule_periodic_job` enqueues the function exactly once,
immediately, for every cron expression and queue name; the cron string only
shapes the returned job-id string (the enqueued state is literally
independent of it), so none of the five registrations of
`setup_scheduled_jobs` (which add exactly their five immediate jobs)
establishes a recurring firing. -/
theorem schedule_periodic_job_single_immediate_enqueue :
    ∀ (func schedule : String) (args : List Json) (kwargs : Option (List (String × Json)))
      (queue now : String) (st : QueueState),
      (JobManager.schedule_periodic_job func schedule args kwargs queue now st).1 =
        "periodic_" ++ func ++ "_" ++ schedule ∧
      totalJobs (JobManager.schedule_periodic_job func schedule args kwargs queue now st).2 =
        totalJobs st + 1 ∧
      (∀ schedule',
        (JobManager.schedule_periodic_job func schedule' args kwargs queue now st).2 =
        (JobManager.schedule_periodic_job func schedule args kwargs queue now st).2) ∧
      totalJobs (setup_scheduled_jobs now st) = totalJobs st + 5 := by
  intro func schedule args kwargs queue now st
  refine ⟨rfl, totalJobs_schedule_periodic func schedule args kwargs queue now st, ?_, ?_⟩
  · intro schedule'
    rfl
  · unfold setup_scheduled_jobs
    rw [totalJobs_schedule_periodic, totalJobs_schedule_periodic, totalJobs_schedule_periodic,
      totalJobs_schedule_periodic, totalJobs_schedule_periodic]

lemma send_requests_with_secret (s : ZapSettings) (event_type : String) (payload : Json)
    (now : String) (outcome : HttpOutcome) (db : MessagingDB)
    (h1 : s.ZAPIER_MODE ≠ "dev_log") (h2 : s.ZAPIER_CATCH_HOOK_URL ≠ "")
    (h3 : s.ZAPIER_HMAC_SECRET ≠ "") :
    (send_zapier_webhook s event_type payload now outcome db).requests =
      [⟨s.ZAPIER_CATCH_HOOK_URL,
        [("Content-Type", "application/json"), ("User-Agent", "BEC-CRM/1.0"),
         ("X-Hook-Signature", "sha256=" ++ zapierSignature s.ZAPIER_HMAC_SECRET
           (Json.dumps (webhookEnvelope now event_type payload)))],
        Json.dumps (webhookEnvelope now event_type payload)⟩] := by
  unfold send_zapier_webhook
  simp only [beq_eq_false_iff_ne.mpr h1, beq_eq_false_iff_ne.mpr h2,
    beq_eq_false_iff_ne.mpr h3]
  cases outcome with
  | response code text =>
    by_cases h4 : (code == 200) = true
    · simp only [h4]; rfl
    · simp only [eq_false_of_ne_true h4]; rfl
  | exception msg => rfl

lemma send_requests_without_secret (s : ZapSettings) (event_type : String) (payload : Json)
    (now : String) (outcome : HttpOutcome) (db : MessagingDB)
    (h1 : s.ZAPIER_MODE ≠ "dev_log") (h2 : s.ZAPIER_CATCH_HOOK_URL ≠ "")
    (h3 : s.ZAPIER_HMAC_SECRET = "") :
    (send_zapier_webhook s event_type payload now outcome db).requests =
      [⟨s.ZAPIER_CATCH_HOOK_URL,
        [("Content-Type", "application/json"), ("User-Agent", "BEC-CRM/1.0")],
        Json.dumps (webhookEnvelope now event_type payload)⟩] ∧
    (send_zapier_webhook s event_type payload now outcome db).db.webhooks.length =
      db.webhooks.length + 1 := by
  unfold send_zapier_webhook
  simp only [beq_eq_false_iff_ne.mpr h1, if_false, beq_eq_false_iff_ne.mpr h2,
    beq_iff_eq.mpr h3, if_true]
  cases outcome with
  | response code text =>
    by_cases h4 : (code == 200) = true
    · simp only [h4, if_true]
      exact ⟨rfl, by simp [update_webhook_success, create_webhook_record]⟩
    · simp only [eq_false_of_ne_true h4, if_false]
      exact ⟨rfl, by simp [update_webhook_failure, create_webhook_record]⟩
  | exception msg =>
    exact ⟨rfl, by simp [update_webhook_failure, create_webhook_record]⟩

/-- C5: in live mode with a configured secret, the single POST carries the
header `X-Hook-Signature: sha256=<hex HMAC-SHA256 of the serialized envelope
bytes keyed by the secret>` — an expression only in the secret and those
bytes, so it is the same across two sends with equal secret and envelope
whatever the store or the network outcome; with no secret configured, the
POST carries no signature header and the delivery still proceeds (a record
is created, no error). Changing one byte of the payload changes the
signature, checked on two envelopes whose serializations differ in exactly
one byte. -/
theorem webhook_signature_headers :
    (∀ (s : ZapSettings) (event_type : String) (payload : Json) (now : String)
       (outcome : HttpOutcome) (db : MessagingDB),
       s.ZAPIER_MODE ≠ "dev_log" → s.ZAPIER_CATCH_HOOK_URL ≠ "" → s.ZAPIER_HMAC_SECRET ≠ "" →
       (send_zapier_webhook s event_type payload now outcome db).requests =
         [⟨s.ZAPIER_CATCH_HOOK_URL,
           [("Content-Type", "application/json"), ("User-Agent", "BEC-CRM/1.0"),
            ("X-Hook-Signature", "sha256=" ++ zapierSignature s.ZAPIER_HMAC_SECRET
              (Json.dumps (webhookEnvelope now event_type payload)))],
           Json.dumps (webhookEnvelope now event_type payload)⟩]) ∧
    (∀ (s1 s2 : ZapSettings) (event_type : String) (payload : Json) (now : String)
       (o1 o2 : HttpOutcome) (db1 db2 : MessagingDB),
       s1.ZAPIER_MODE ≠ "dev_log" → s2.ZAPIER_MODE ≠ "dev_log" →
       s1.ZAPIER_CATCH_HOOK_URL ≠ "" → s2.ZAPIER_CATCH_HOOK_URL ≠ "" →
       s1.ZAPIER_HMAC_SECRET ≠ "" → s1.ZAPIER_HMAC_SECRET = s2.ZAPIER_HMAC_SECRET →
       ((send_zapier_webhook s1 event_type payload now o1 db1).requests.map
          (fun r => r.headers)) =
       ((send_zapier_webhook s2 event_type payload now o2 db2).requests.map
          (fun r => r.headers))) ∧
    (∀ (s : ZapSettings) (event_type : String) (payload : Json) (now : String)
       (outcome : HttpOutcome) (db : MessagingDB),
       s.ZAPIER_MODE ≠ "dev_log" → s.ZAPIER_CATCH_HOOK_URL ≠ "" → s.ZAPIER_HMAC_SECRET = "" →
       (send_zapier_webhook s event_type payload now outcome db).requests =
         [⟨s.ZAPIER_CATCH_HOOK_URL,
           [("Content-Type", "application/json"), ("User-Agent", "BEC-CRM/1.0")],
           Json.dumps (webhookEnvelope now event_type payload)⟩] ∧
       (send_zapier_webhook s event_type payload now outcome db).db.webhooks.length =
         db.webhooks.length + 1) ∧
    (((utf8Bytes (Json.dumps (webhookEnvelope "2025-01-15T09:00:00" "membership.expiring_30d"
        (Json.obj [("client_id", Json.str "c1")])))).zip
      (utf8Bytes (Json.dumps (webhookEnvelope "2025-01-15T09:00:00" "membership.expiring_30d"
        (Json.obj [("client_id", Json.str "c2")]))))).countP
        (fun q => decide (q.1 ≠ q.2)) = 1 ∧
     (utf8Bytes (Json.dumps (webhookEnvelope "2025-01-15T09:00:00" "membership.expiring_30d"
        (Json.obj [("client_id", Json.str "c1")])))).length =
     (utf8Bytes (Json.dumps (webhookEnvelope "2025-01-15T09:00:00" "membership.expiring_30d"
        (Json.obj [("client_id", Json.str "c2")])))).length ∧
     zapierSignature "s3cr3t" (Json.dumps (webhookEnvelope "2025-01-15T09:00:00"
        "membership.expiring_30d" (Json.obj [("client_id", Json.str "c1")]))) ≠
     zapierSignature "s3cr3t" (Json.dumps (webhookEnvelope "2025-01-15T09:00:00"
        "membership.expiring_30d" (Json.obj [("client_id", Json.str "c2")])))) := by
  refine ⟨?_, ?_, ?_, ?_, ?_, ?_⟩
  · intro s event_type payload now outcome db h1 h2 h3
    exact send_requests_with_secret s event_type payload now outcome db h1 h2 h3
  · intro s1 s2 event_type payload now o1 o2 db1 db2 h1 h1' h2 h2' h3 hsec
    rw [send_requests_with_secret s1 event_type payload now o1 db1 h1 h2 h3,
      send_requests_with_secret s2 event_type payload now o2 db2 h1' h2' (hsec ▸ h3), hsec]
    simp
  · intro s event_type payload now outcome db h1 h2 h3
    exact send_requests_without_secret s event_type payload now outcome db h1 h2 h3
  · decide
  · decide
  · decide

/-- Witness for C5: a concrete live send with secret s3cr3t carries exactly
the documented headers, and a concrete no-secret send carries none and still
creates its Delivery Record. -/
theorem webhook_signature_headers_witness :
    ((send_zapier_webhook ⟨"production", "https://hooks.example/catch", "s3cr3t"⟩
        "client.created" (Json.obj []) "t0" (.response 200 "ok")
        initialMessagingDB).requests =
      [⟨"https://hooks.example/catch",
        [("Content-Type", "application/json"), ("User-Agent", "BEC-CRM/1.0"),
         ("X-Hook-Signature", "sha256=" ++ zapierSignature "s3cr3t"
           (Json.dumps (webhookEnvelope "t0" "client.created" (Json.obj []))))],
        Json.dumps (webhookEnvelope "t0" "client.created" (Json.obj []))⟩]) ∧
    ((send_zapier_webhook ⟨"production", "https://hooks.example/catch", ""⟩
        "client.created" (Json.obj []) "t0" (.response 200 "ok")
        initialMessagingDB).db.webhooks.length = 0 + 1) := by
  constructor
  · exact webhook_signature_headers.1 ⟨"production", "https://hooks.example/catch", "s3cr3t"⟩
      "client.created" (Json.obj []) "t0" (.response 200 "ok") initialMessagingDB
      (by decide) (by decide) (by decide)
  · exact (webhook_signature_headers.2.2.1 ⟨"production", "https://hooks.example/catch", ""⟩
      "client.created" (Json.obj []) "t0" (.response 200 "ok") initialMessagingDB
      (by decide) (by decide) rfl).2

/-- C10: in live mode, a missing destination URL makes the send log a
warning and return False with no Delivery Record created and no network
request issued; whereas a configured URL whose POST raises (unreachable
endpoint) does create a record — appended to the store, holding the error
text, status Queued at attempt_count 2, and still matched by the hourly
retry sweep's filter (Failed-eligible). -/
theorem missing_url_soft_failure_vs_unreachable :
    (∀ (s : ZapSettings) (event_type : String) (payload : Json) (now : String)
       (outcome : HttpOutcome) (db : MessagingDB),
       s.ZAPIER_MODE ≠ "dev_log" → s.ZAPIER_CATCH_HOOK_URL = "" →
       send_zapier_webhook s event_type payload now outcome db =
         { ok := false, db := db, requests := [],
           logs := [⟨.warning, "Zapier webhook URL not configured"⟩] }) ∧
    (∀ (s : ZapSettings) (event_type : String) (payload : Json) (now e : String)
       (db : MessagingDB),
       s.ZAPIER_MODE ≠ "dev_log" → s.ZAPIER_CATCH_HOOK_URL ≠ "" →
       (send_zapier_webhook s event_type payload now (.exception e) db).ok = false ∧
       (send_zapier_webhook s event_type payload now (.exception e) db).db.webhooks.getLast? =
         some { id := db.nextId, event := event_type,
                payload := webhookEnvelope now event_type payload,
                status := .queued, attempt_count := 2, last_error := some e,
                zap_run_id := none, sent_at := none } ∧
       (send_zapier_webhook s event_type payload now (.exception e) db).db.webhooks.length =
         db.webhooks.length + 1 ∧
       retryPred { id := db.nextId, event := event_type,
                   payload := webhookEnvelope now event_type payload,
                   status := .queued, attempt_count := 2, last_error := some e,
                   zap_run_id := none, sent_at := none } = true) := by
  constructor
  · intro s event_type payload now outcome db h1 h2
    unfold send_zapier_webhook
    simp only [beq_eq_false_iff_ne.mpr h1, beq_iff_eq.mpr h2]
    rfl
  · intro s event_type payload now e db h1 h2
    refine ⟨?_, ?_, ?_, rfl⟩
    · unfold send_zapier_webhook
      simp only [beq_eq_false_iff_ne.mpr h1, beq_eq_false_iff_ne.mpr h2]
      rfl
    · unfold send_zapier_webhook
      simp only [beq_eq_false_iff_ne.mpr h1, beq_eq_false_iff_ne.mpr h2]
      show (update_webhook_failure _ _ _).webhooks.getLast? = _
      simp only [update_webhook_failure, create_webhook_record, List.map_append,
        List.map_cons, List.map_nil]
      rw [List.getLast?_concat]
      simp [applyWebhookFailure]
    · unfold send_zapier_webhook
      simp only [beq_eq_false_iff_ne.mpr h1, beq_eq_false_iff_ne.mpr h2]
      show (update_webhook_failure _ _ _).webhooks.length = _
      simp [update_webhook_failure, create_webhook_record]

/-- Witness for C10: concrete checks of both halves — a live send with no
URL configured is a pure soft failure, and a live send whose POST raises
leaves one retry-eligible record holding the error. -/
theorem missing_url_soft_failure_vs_unreachable_witness :
    (send_zapier_webhook ⟨"production", "", "s3cr3t"⟩ "client.created" (Json.obj [])
       "t0" (.response 200 "ok") initialMessagingDB =
      { ok := false, db := initialMessagingDB, requests := [],
        logs := [⟨.warning, "Zapier webhook URL not configured"⟩] }) ∧
    (send_zapier_webhook ⟨"production", "https://hooks.example/catch", "s3cr3t"⟩
       "client.created" (Json.obj []) "t0" (.exception "Connection timeout")
       initialMessagingDB).db.webhooks.getLast? =
      some { id := 0, event := "client.created",
             payload := webhookEnvelope "t0" "client.created" (Json.obj []),
             status := .queued, attempt_count := 2,
             last_error := some "Connection timeout",
             zap_run_id := none, sent_at := none } := by
  constructor
  · exact missing_url_soft_failure_vs_unreachable.1 ⟨"production", "", "s3cr3t"⟩
      "client.created" (Json.obj []) "t0" (.response 200 "ok") initialMessagingDB
      (by decide) rfl
  · exact (missing_url_soft_failure_vs_unreachable.2
      ⟨"production", "https://hooks.example/catch", "s3cr3t"⟩
      "client.created" (Json.obj []) "t0" "Connection timeout" initialMessagingDB
      (by decide) (by decide)).2.1

/-- C9: `process_event` on any event type outside the closed five-element
set returns normally having created no Delivery Record, issued no webhook
POST and no access-control call; it only logs the dispatch line and an
"Unknown event type" warning. -/
theorem unknown_event_type_dropped :
    ∀ (ctx : EventCtx) (event_type : String) (payload : Json) (db : MessagingDB),
      event_type ∉ ["client.created", "membership.expiring_30d", "membership.status_changed",
        "client.not_checked_in_mid_month", "krc_meetup_announce"] →
      process_event ctx event_type payload db =
        { db := db, requests := [], ggCalls := [],
          logs := [⟨.info, "Processing event: " ++ event_type⟩,
                   ⟨.warning, "Unknown event type: " ++ event_type⟩] } := by
  intro ctx event_type payload db h
  simp only [List.mem_cons, List.not_mem_nil, or_false, not_or] at h
  obtain ⟨n1, n2, n3, n4, n5⟩ := h
  unfold process_event
  simp only [beq_eq_false_iff_ne.mpr n1, beq_eq_false_iff_ne.mpr n2,
    beq_eq_false_iff_ne.mpr n3, beq_eq_false_iff_ne.mpr n4, beq_eq_false_iff_ne.mpr n5]
  rfl

/-- Witness for C9: the spec's `process("nonexistent.event", ...)` example
against a fully concrete context. -/
theorem unknown_event_type_dropped_witness :
    process_event
      { FEATURE_MESSAGING := true,
        zap := ⟨"production", "https://hooks.example/catch", "s3cr3t"⟩,
        gg := ⟨true, "https://api.ggleap.com", "k"⟩,
        ggdb := ⟨fun _ => none, none, none⟩,
        now := "t0", outcome := .response 200 "ok",
        o1 := .response 200 "ok", o2 := .response 200 "ok" }
      "nonexistent.event" (Json.obj []) initialMessagingDB =
      { db := initialMessagingDB, requests := [], ggCalls := [],
        logs := [⟨.info, "Processing event: " ++ "nonexistent.event"⟩,
                 ⟨.warning, "Unknown event type: " ++ "nonexistent.event"⟩] } :=
  unknown_event_type_dropped
    { FEATURE_MESSAGING := true,
      zap := ⟨"production", "https://hooks.example/catch", "s3cr3t"⟩,
      gg := ⟨true, "https://api.ggleap.com", "k"⟩,
      ggdb := ⟨fun _ => none, none, none⟩,
      now := "t0", outcome := .response 200 "ok",
      o1 := .response 200 "ok", o2 := .response 200 "ok" }
    "nonexistent.event" (Json.obj []) initialMessagingDB (by decide)

lemma add_call_trace (s : GgSettings) (user_id group_id : String) (outcome : HttpOutcome)
    (hkey : s.GGLEAP_API_KEY ≠ "") :
    (GgLeapAPI.add_user_to_group s user_id group_id outcome).2.1 =
      [.addMember group_id user_id] := by
  unfold GgLeapAPI.add_user_to_group
  simp only [beq_eq_false_iff_ne.mpr hkey]
  cases outcome with
  | response code text =>
    by_cases h : (code == 200 || code == 201) = true
    · simp only [h]; rfl
    · simp only [eq_false_of_ne_true h]; rfl
  | exception msg => rfl

lemma remove_call_trace (s : GgSettings) (user_id group_id : String) (outcome : HttpOutcome)
    (hkey : s.GGLEAP_API_KEY ≠ "") :
    (GgLeapAPI.remove_user_from_group s user_id group_id outcome).2.1 =
      [.removeMember group_id user_id] := by
  unfold GgLeapAPI.remove_user_from_group
  simp only [beq_eq_false_iff_ne.mpr hkey]
  cases outcome with
  | response code text =>
    by_cases h : (code == 200 || code == 204) = true
    · simp only [h]; rfl
    · simp only [eq_false_of_ne_true h]; rfl
  | exception msg => rfl

/-- C6: with the sync feature on, a linked client and both mappings
configured, reconciling with status "active" invokes add-to-Active then
remove-from-Expired, any other status invokes add-to-Expired then
remove-from-Active; the quantification over both legs' outcomes (including
exceptions) shows the remove leg is attempted whatever the add leg produced,
and with an API key configured the two HTTP calls are issued in that order;
the embedding is a total function because every raise site of the source is
caught, so nothing propagates out of the reconciliation call. -/
theorem reconcile_add_then_remove_both_legs :
    ∀ (s : GgSettings) (cfg : GgleapDB) (client_id status : String)
      (link : GgleapLink) (ag eg : GgleapGroup) (o1 o2 : HttpOutcome),
      s.FEATURE_GGLEAP_SYNC = true →
      cfg.linkFor client_id = some link →
      cfg.active_group = some ag →
      cfg.expired_group = some eg →
      ((status = "active" →
        (update_client_ggleap_group s cfg client_id status o1 o2).invocations =
          [.add link.ggleap_user_id ag.ggleap_group_id,
           .remove link.ggleap_user_id eg.ggleap_group_id]) ∧
       (status ≠ "active" →
        (update_client_ggleap_group s cfg client_id status o1 o2).invocations =
          [.add link.ggleap_user_id eg.ggleap_group_id,
           .remove link.ggleap_user_id ag.ggleap_group_id]) ∧
       (s.GGLEAP_API_KEY ≠ "" → status = "active" →
        (update_client_ggleap_group s cfg client_id status o1 o2).calls =
          [.addMember ag.ggleap_group_id link.ggleap_user_id,
           .removeMember eg.ggleap_group_id link.ggleap_user_id]) ∧
       (s.GGLEAP_API_KEY ≠ "" → status ≠ "active" →
        (update_client_ggleap_group s cfg client_id status o1 o2).calls =
          [.addMember eg.ggleap_group_id link.ggleap_user_id,
           .removeMember ag.ggleap_group_id link.ggleap_user_id])) := by
  intro s cfg client_id status link ag eg o1 o2 hflag hlink hag heg
  refine ⟨?_, ?_, ?_, ?_⟩
  · intro hst
    simp [update_client_ggleap_group, hflag, hlink, hag, heg, hst]
  · intro hst
    simp [update_client_ggleap_group, hflag, hlink, hag, heg, beq_eq_false_iff_ne.mpr hst]
  · intro hkey hst
    simp only [update_client_ggleap_group, hflag, Bool.not_true, Bool.false_eq_true,
      if_false, hlink, hag, heg, hst, beq_self_eq_true, if_true]
    rw [add_call_trace s _ _ o1 hkey, remove_call_trace s _ _ o2 hkey]
    rfl
  · intro hkey hst
    simp only [update_client_ggleap_group, hflag, Bool.not_true, Bool.false_eq_true,
      if_false, hlink, hag, heg, beq_eq_false_iff_ne.mpr hst]
    rw [add_call_trace s _ _ o1 hkey, remove_call_trace s _ _ o2 hkey]
    rfl

/-- Witness for C6 at a concrete input: the add leg raises (service down)
and the remove leg still runs, in the documented order. -/
theorem reconcile_add_then_remove_both_legs_witness :
    (update_client_ggleap_group ⟨true, "https://api.ggleap.com", "k"⟩
      ⟨fun _ => some ⟨"u"⟩, some ⟨"ga"⟩, some ⟨"ge"⟩⟩ "c1" "active"
      (.exception "service down") (.response 500 "err")).invocations =
      [.add "u" "ga", .remove "u" "ge"] :=
  (reconcile_add_then_remove_both_legs ⟨true, "https://api.ggleap.com", "k"⟩
    ⟨fun _ => some ⟨"u"⟩, some ⟨"ga"⟩, some ⟨"ge"⟩⟩ "c1" "active" ⟨"u"⟩ ⟨"ga"⟩ ⟨"ge"⟩
    (.exception "service down") (.response 500 "err") rfl rfl rfl rfl).1 rfl

lemma exec_add_remove (u ag eg : String) (hne : ag ≠ eg) (st : GgExtState) :
    ((execCalls (execCalls st [.addMember ag u, .removeMember eg u]).1
        [.addMember ag u, .removeMember eg u]).1 =
      (execCalls st [.addMember ag u, .removeMember eg u]).1) ∧
    (u, ag) ∈ (execCalls st [.addMember ag u, .removeMember eg u]).1 ∧
    (u, eg) ∉ (execCalls st [.addMember ag u, .removeMember eg u]).1 ∧
    (execCalls (execCalls st [.addMember ag u, .removeMember eg u]).1
        [.addMember ag u, .removeMember eg u]).2 =
      [.response 200 "already a member", .response 404 "not a member"] := by
  have hpair : ((u, ag) : String × String) ≠ (u, eg) := by
    intro hp
    exact hne (congrArg Prod.snd hp)
  simp only [execCalls, svcApply]
  by_cases h1 : ((u, ag) : String × String) ∈ st
  · simp only [if_pos h1]
    by_cases h2 : ((u, eg) : String × String) ∈ st
    · simp only [if_pos h2]
      have hag2 : ((u, ag) : String × String) ∈ st.filter (fun p => decide (p ≠ (u, eg))) :=
        List.mem_filter.mpr ⟨h1, by simp [hpair]⟩
      have heg2 : ((u, eg) : String × String) ∉ st.filter (fun p => decide (p ≠ (u, eg))) := by
        simp [List.mem_filter]
      simp only [if_pos hag2, if_neg heg2]
      exact ⟨trivial, hag2, heg2, trivial⟩
    · simp only [if_neg h2, if_pos h1]
      exact ⟨trivial, h1, h2, trivial⟩
  · simp only [if_neg h1]
    by_cases h2 : ((u, eg) : String × String) ∈ (u, ag) :: st
    · simp only [if_pos h2]
      have hag2 : ((u, ag) : String × String) ∈
          ((u, ag) :: st).filter (fun p => decide (p ≠ (u, eg))) :=
        List.mem_filter.mpr ⟨List.mem_cons_self _ _, by simp [hpair]⟩
      have heg2 : ((u, eg) : String × String) ∉
          ((u, ag) :: st).filter (fun p => decide (p ≠ (u, eg))) := by
        simp [List.mem_filter]
      simp only [if_pos hag2, if_neg heg2]
      exact ⟨trivial, hag2, heg2, trivial⟩
    · simp only [if_pos (List.mem_cons_self (u, ag) st), if_neg h2]
      exact ⟨trivial, List.mem_cons_self _ _, h2, trivial⟩

/-- C7: running reconcile(client, "active") against the deterministic model
of the external service is idempotent: the end state of two consecutive runs
equals the end state of one run, the client is a member of Active and not of
Expired, and the second run's remove-from-Expired leg indeed fails with 404
(the client is already absent) without disturbing the state. -/
theorem reconcile_active_idempotent :
    ∀ (base key client_id user ag eg : String) (st : GgExtState) (o1 o2 : HttpOutcome),
      key ≠ "" → ag ≠ eg →
      ∀ cs, cs = (update_client_ggleap_group ⟨true, base, key⟩
          ⟨fun _ => some ⟨user⟩, some ⟨ag⟩, some ⟨eg⟩⟩ client_id "active" o1 o2).calls →
      ((execCalls (execCalls st cs).1 cs).1 = (execCalls st cs).1 ∧
       (user, ag) ∈ (execCalls st cs).1 ∧
       (user, eg) ∉ (execCalls st cs).1 ∧
       (execCalls (execCalls st cs).1 cs).2 =
         [.response 200 "already a member", .response 404 "not a member"]) := by
  intro base key client_id user ag eg st o1 o2 hkey hne cs hcs
  have hcalls : cs = [.addMember ag user, .removeMember eg user] := by
    rw [hcs]
    simp only [update_client_ggleap_group, Bool.not_true, Bool.false_eq_true, if_false,
      beq_self_eq_true, if_true]
    rw [add_call_trace ⟨true, base, key⟩ user ag o1 hkey,
      remove_call_trace ⟨true, base, key⟩ user eg o2 hkey]
    rfl
  rw [hcalls]
  exact exec_add_remove user ag eg hne st

/-- Witness for C7 at a concrete input, starting from the empty external
state. -/
theorem reconcile_active_idempotent_witness :
    ((execCalls (execCalls [] (update_client_ggleap_group ⟨true, "b", "k"⟩
        ⟨fun _ => some ⟨"u"⟩, some ⟨"ga"⟩, some ⟨"ge"⟩⟩ "c1" "active"
        (.response 201 "added") (.response 404 "not a member")).calls).1
      (update_client_ggleap_group ⟨true, "b", "k"⟩
        ⟨fun _ => some ⟨"u"⟩, some ⟨"ga"⟩, some ⟨"ge"⟩⟩ "c1" "active"
        (.response 201 "added") (.response 404 "not a member")).calls).1 =
      (execCalls [] (update_client_ggleap_group ⟨true, "b", "k"⟩
        ⟨fun _ => some ⟨"u"⟩, some ⟨"ga"⟩, some ⟨"ge"⟩⟩ "c1" "active"
        (.response 201 "added") (.response 404 "not a member")).calls).1) ∧
    ("u", "ga") ∈ (execCalls [] (update_client_ggleap_group ⟨true, "b", "k"⟩
        ⟨fun _ => some ⟨"u"⟩, some ⟨"ga"⟩, some ⟨"ge"⟩⟩ "c1" "active"
        (.response 201 "added") (.response 404 "not a member")).calls).1 ∧
    ("u", "ge") ∉ (execCalls [] (update_client_ggleap_group ⟨true, "b", "k"⟩
        ⟨fun _ => some ⟨"u"⟩, some ⟨"ga"⟩, some ⟨"ge"⟩⟩ "c1" "active"
        (.response 201 "added") (.response 404 "not a member")).calls).1 ∧
    (execCalls (execCalls [] (update_client_ggleap_group ⟨true, "b", "k"⟩
        ⟨fun _ => some ⟨"u"⟩, some ⟨"ga"⟩, some ⟨"ge"⟩⟩ "c1" "active"
        (.response 201 "added") (.response 404 "not a member")).calls).1
      (update_client_ggleap_group ⟨true, "b", "k"⟩
        ⟨fun _ => some ⟨"u"⟩, some ⟨"ga"⟩, some ⟨"ge"⟩⟩ "c1" "active"
        (.response 201 "added") (.response 404 "not a member")).calls).2 =
      [.response 200 "already a member", .response 404 "not a member"] :=
  reconcile_active_idempotent "b" "k" "c1" "u" "ga" "ge" [] (.response 201 "added")
    (.response 404 "not a member") (by decide) (by decide) _ rfl

/-- C8 as stated is false on the code: for a client with NO external link,
the function returns at the link check with an informational log line, so
"logs an error" fails even though the group mappings are absent (no HTTP
call is made and nothing is raised there either). Concretely, reconciling
client-9 with status expired under a configuration with no link rows and no
mappings logs only "No ggLeap link found", no error. -/
theorem reconcile_missing_mapping_claim_counterexample :
    ¬ (∀ (s : GgSettings) (cfg : GgleapDB) (client_id status : String) (o1 o2 : HttpOutcome),
        (cfg.active_group = none ∨ cfg.expired_group = none) →
        (update_client_ggleap_group s cfg client_id status o1 o2).calls = [] ∧
        (∃ l ∈ (update_client_ggleap_group s cfg client_id status o1 o2).logs,
          l.level = .error)) := by
  intro hclaim
  obtain ⟨-, l, hl, herr⟩ := hclaim ⟨true, "https://api.ggleap.com", "k"⟩
    ⟨fun _ => none, none, none⟩ "client-9" "expired"
    (.response 200 "") (.response 200 "") (Or.inl rfl)
  have hli : l = ⟨.info, "No ggLeap link found for client client-9"⟩ := by
    simpa [update_client_ggleap_group] using hl
  rw [hli] at herr
  exact absurd herr (by decide)

/-- C8 amended: for every client that HAS an external link (and with the
sync feature enabled), a missing Active or Expired mapping aborts the whole
reconciliation before any API client use: no leg is invoked, no HTTP call is
made, the only log line is the mapping error, and the function returns
normally (the embedding is total). For a linkless client the same no-call
no-raise behavior holds but only an informational line is logged. -/
theorem reconcile_missing_mapping_linked_aborts :
    ∀ (s : GgSettings) (cfg : GgleapDB) (client_id status : String) (link : GgleapLink)
      (o1 o2 : HttpOutcome),
      s.FEATURE_GGLEAP_SYNC = true →
      cfg.linkFor client_id = some link →
      (cfg.active_group = none ∨ cfg.expired_group = none) →
      (update_client_ggleap_group s cfg client_id status o1 o2).calls = [] ∧
      (update_client_ggleap_group s cfg client_id status o1 o2).invocations = [] ∧
      (update_client_ggleap_group s cfg client_id status o1 o2).logs =
        [⟨.error, "ggLeap group mappings not configured"⟩] := by
  intro s cfg client_id status link o1 o2 hflag hlink hmiss
  rcases hmiss with h | h
  · cases he : cfg.expired_group <;>
      simp [update_client_ggleap_group, hflag, hlink, h, he]
  · cases ha : cfg.active_group <;>
      simp [update_client_ggleap_group, hflag, hlink, h, ha]

/-- Witness for C8's amended claim at a concrete input: linked client,
Expired mapping missing. -/
theorem reconcile_missing_mapping_linked_aborts_witness :
    (update_client_ggleap_group ⟨true, "https://api.ggleap.com", "k"⟩
      ⟨fun _ => some ⟨"u9"⟩, some ⟨"ga"⟩, none⟩ "client-9" "expired"
      (.response 200 "") (.response 200 "")).calls = [] ∧
    (update_client_ggleap_group ⟨true, "https://api.ggleap.com", "k"⟩
      ⟨fun _ => some ⟨"u9"⟩, some ⟨"ga"⟩, none⟩ "client-9" "expired"
      (.response 200 "") (.response 200 "")).invocations = [] ∧
    (update_client_ggleap_group ⟨true, "https://api.ggleap.com", "k"⟩
      ⟨fun _ => some ⟨"u9"⟩, some ⟨"ga"⟩, none⟩ "client-9" "expired"
      (.response 200 "") (.response 200 "")).logs =
      [⟨.error, "ggLeap group mappings not configured"⟩] :=
  reconcile_missing_mapping_linked_aborts ⟨true, "https://api.ggleap.com", "k"⟩
    ⟨fun _ => some ⟨"u9"⟩, some ⟨"ga"⟩, none⟩ "client-9" "expired" ⟨"u9"⟩
    (.response 200 "") (.response 200 "") rfl rfl (Or.inr rfl)

end KRC
